import Mathlib

/-!
# Verification of the user-space NAT connection tracker

Shallow embedding of `pkg/ebpf/netlink/conntracker.go`: the conntrack
event decoder (`isNAT`, `formatKey`, `formatIPTranslation`), the tracker
state (`realConntracker` with its translation index `state` and
`shortLivedBuffer`), and the operations `register`, `unregister`,
`GetTranslationForConn`, `ClearShortLived`, `GetStats`, `compact`,
`loadInitialState`, `Close`.

Go nil-pointer dereference is modelled by computing in `Except Unit`:
dereferencing an absent (`none`) field raises `Except.error ()`, which
corresponds to a runtime panic. Go maps are modelled as association
lists; Go `net.IP` values as byte lists.
-/

namespace Netlink

/-- A Go `net.IP`: a byte slice of length 4 (IPv4) or 16 (IPv6). -/
abbrev NetIP := List Nat

/-- The 12-byte v4-in-v6 header used by `net.IP.Equal` when comparing a
4-byte address with a 16-byte one. -/
def v4InV6Header : NetIP := [0, 0, 0, 0, 0, 0, 0, 0, 0, 0, 255, 255]

/-- `net.IP.Equal` from the Go standard library: byte-wise equality when
the lengths agree, and 4-byte/16-byte comparison through the v4-in-v6
mapping otherwise. -/
def ipEqual (a b : NetIP) : Bool :=
  if a.length = b.length then a == b
  else if a.length = 4 && b.length = 16 then v4InV6Header ++ a == b
  else if a.length = 16 && b.length = 4 then a == v4InV6Header ++ b
  else false

/-- Modelled from the spec: `util.Address` (package
`pkg/process/util`, not under `src/`) is "a 16-byte container holding an
IPv4 or IPv6 address in canonical form; equality is byte-wise", and
`util.AddressFromNetIP` converts a `net.IP` into it. We model an
`Address` as the byte list itself, so the conversion preserves bytes. -/
abbrev Address := List Nat

/-- Modelled from the spec: `util.AddressFromNetIP` keeps the bytes of
the `net.IP` (byte-wise equality on the result). -/
def AddressFromNetIP (ip : NetIP) : Address := ip

/-- `process.ConnectionType` from the agent payload: {tcp, udp}, with
tcp as the zero value. -/
inductive ConnectionType where
  | tcp
  | udp
deriving DecidableEq, Repr

/-- `ct.ProtoTupleType`: the L4 part of a conntrack tuple, every field
nullable (a Go pointer). -/
structure ProtoTuple where
  Number : Option Nat
  SrcPort : Option Nat
  DstPort : Option Nat
deriving DecidableEq, Repr

/-- `ct.IPTupleType`: one side of a conntrack entry, every field
nullable. -/
structure IPTuple where
  Src : Option NetIP
  Dst : Option NetIP
  Proto : Option ProtoTuple
deriving DecidableEq, Repr

/-- `ct.Con`: a conntrack entry with an origin and a reply tuple, both
nullable. -/
structure Con where
  Origin : Option IPTuple
  Reply : Option IPTuple
deriving DecidableEq, Repr

/-- Dereference a Go pointer: absent means a nil-pointer panic, which we
model as `Except.error ()`. -/
def deref {α : Type} : Option α → Except Unit α
  | some a => .ok a
  | none => .error ()

/-- `connKey`: the map key `(ip, port, transport)` built from the origin
tuple. -/
structure connKey where
  ip : Address
  port : Nat
  transport : ConnectionType
deriving DecidableEq, Repr

/-- `IPTranslation`: the reply-tuple view stored for a tracked flow. -/
structure IPTranslation where
  ReplSrcIP : Address
  ReplDstIP : Address
  ReplSrcPort : Nat
  ReplDstPort : Nat
deriving DecidableEq, Repr

/-- `connValue`: an `*IPTranslation` together with its expiry
generation (`expGeneration uint8`). The embedded pointer field
`IPTranslation` is named `translation` here. -/
structure connValue where
  translation : IPTranslation
  expGeneration : Nat
deriving DecidableEq, Repr

/-- The nil-check block at the top of `isNAT` (conntracker.go lines
336-344): true iff one of the eight checked fields is nil. The Go `||`
chain short-circuits, so `c.Origin.Proto` is only read once `c.Origin`
is known non-nil; the nested match reproduces that. -/
def requiredAbsent (c : Con) : Bool :=
  match c.Origin with
  | none => true
  | some o =>
    match c.Reply with
    | none => true
    | some r =>
      match o.Proto with
      | none => true
      | some op =>
        match r.Proto with
        | none => true
        | some rp =>
          op.SrcPort.isNone || op.DstPort.isNone ||
          rp.SrcPort.isNone || rp.DstPort.isNone

/-- `isNAT` (conntracker.go lines 335-351): after the nil-check block it
evaluates, with Go short-circuit order,
`!Origin.Src.Equal(Reply.Dst) || !Origin.Dst.Equal(Reply.Src) ||
Origin.Proto.SrcPort != Reply.Proto.DstPort ||
Origin.Proto.DstPort != Reply.Proto.SrcPort`.
The address fields are dereferenced without a nil check, so an absent
address on the evaluated path faults. -/
def isNAT (c : Con) : Except Unit Bool :=
  if requiredAbsent c then .ok false
  else do
    let o ← deref c.Origin
    let r ← deref c.Reply
    let op ← deref o.Proto
    let rp ← deref r.Proto
    let oSrc ← deref o.Src
    let rDst ← deref r.Dst
    if ipEqual oSrc rDst = false then .ok true else do
    let oDst ← deref o.Dst
    let rSrc ← deref r.Src
    if ipEqual oDst rSrc = false then .ok true else do
    let oSp ← deref op.SrcPort
    let rDp ← deref rp.DstPort
    if oSp ≠ rDp then .ok true else do
    let oDp ← deref op.DstPort
    let rSp ← deref rp.SrcPort
    .ok (oDp != rSp)

/-- `formatKey` (conntracker.go lines 381-398): reads
`Origin.Src`, `Origin.Proto.SrcPort` and `Origin.Proto.Number` (all
unchecked dereferences), mapping protocol 6 to TCP, 17 to UDP, anything
else to `ok = false` with the transport left at its zero value (tcp). -/
def formatKey (c : Con) : Except Unit (connKey × Bool) := do
  let o ← deref c.Origin
  let src ← deref o.Src
  let op ← deref o.Proto
  let sp ← deref op.SrcPort
  let num ← deref op.Number
  if num = 6 then .ok (⟨AddressFromNetIP src, sp, .tcp⟩, true)
  else if num = 17 then .ok (⟨AddressFromNetIP src, sp, .udp⟩, true)
  else .ok (⟨AddressFromNetIP src, sp, .tcp⟩, false)

/-- `formatIPTranslation` (conntracker.go lines 363-379): copies
`Reply.Src`, `Reply.Dst`, `Reply.Proto.SrcPort`, `Reply.Proto.DstPort`
(unchecked dereferences) and stamps the supplied generation. -/
def formatIPTranslation (c : Con) (generation : Nat) : Except Unit connValue := do
  let r ← deref c.Reply
  let replSrcIP ← deref r.Src
  let replDstIP ← deref r.Dst
  let rp ← deref r.Proto
  let replSrcPort ← deref rp.SrcPort
  let replDstPort ← deref rp.DstPort
  .ok { translation :=
          { ReplSrcIP := AddressFromNetIP replSrcIP,
            ReplDstIP := AddressFromNetIP replDstIP,
            ReplSrcPort := replSrcPort,
            ReplDstPort := replDstPort },
        expGeneration := generation }

/-! ## Go maps as association lists -/

/-- Go map read `m[k]` returning presence: the value at the first
occurrence of `k`. -/
def mapLookup {κ α : Type} [DecidableEq κ] : List (κ × α) → κ → Option α
  | [], _ => none
  | (k', v) :: rest, k => if k' = k then some v else mapLookup rest k

/-- Go map write `m[k] = v`: overwrite the existing binding, or append a
new one. -/
def mapInsert {κ α : Type} [DecidableEq κ] : List (κ × α) → κ → α → List (κ × α)
  | [], k, v => [(k, v)]
  | (k', v') :: rest, k, v =>
      if k' = k then (k, v) :: rest else (k', v') :: mapInsert rest k v

/-- Go `delete(m, k)`. -/
def mapErase {κ α : Type} [DecidableEq κ] : List (κ × α) → κ → List (κ × α)
  | [], _ => []
  | (k', v') :: rest, k =>
      if k' = k then mapErase rest k else (k', v') :: mapErase rest k

/-! ## Generation clock -/

/-- `compactInterval = 3 * time.Minute`, in nanoseconds
(conntracker.go line 23). -/
def compactInterval : Nat := 3 * 60 * 1000000000

/-- `generationLength = compactInterval + time.Minute`, in nanoseconds
(conntracker.go line 26). -/
def generationLength : Nat := compactInterval + 60 * 1000000000

/-- Modelled from the spec: `getCurrentGeneration` lives elsewhere in
package `netlink` (not under `src/`); the spec defines
`current(now) = (now / generationLength) mod 256`. -/
def getCurrentGeneration (genLength nowNs : Nat) : Nat :=
  (nowNs / genLength) % 256

/-- Modelled from the spec: `getNthGeneration` lives elsewhere in
package `netlink` (not under `src/`); the spec defines
`nth(now, n) = current(now) + n mod 256` (uint8 arithmetic). -/
def getNthGeneration (genLength nowNs n : Nat) : Nat :=
  (getCurrentGeneration genLength nowNs + n) % 256

/-! ## Tracker state -/

/-- The atomic statistics block of `realConntracker` (int64 fields). -/
structure Stats where
  gets : Int
  getTimeTotal : Int
  registers : Int
  registersTotalTime : Int
  unregisters : Int
  unregistersTotalTime : Int
  expiresTotal : Int
deriving DecidableEq, Repr

/-- The all-zero statistics block a fresh tracker starts with. -/
def zeroStats : Stats := ⟨0, 0, 0, 0, 0, 0, 0⟩

/-- The in-memory state of `realConntracker`: the translation index
`state`, the `shortLivedBuffer`, the two capacity limits, and the
statistics block. The netlink handles, tickers and lock are external
resources and are modelled separately (`CloseState`). -/
structure realConntracker where
  state : List (connKey × connValue)
  shortLivedBuffer : List (connKey × IPTranslation)
  maxShortLivedBuffer : Nat
  maxStateSize : Nat
  stats : Stats
deriving DecidableEq, Repr

/-- The map fields of a tracker as built by `newConntrackerOnce`
(conntracker.go lines 124-133): empty maps, the given capacities, zero
counters. -/
def mkTracker (deleteBufferSize maxStateSize : Nat) : realConntracker :=
  { state := []
    shortLivedBuffer := []
    maxShortLivedBuffer := deleteBufferSize
    maxStateSize := maxStateSize
    stats := zeroStats }

/-! ## Tracker operations

Each operation that reads the wall clock takes the observed timestamps
as parameters: `t0` is the first `time.Now().UnixNano()` the Go code
takes, `t1` the second. -/

/-- `GetTranslationForConn` (conntracker.go lines 164-184): look the key
up in `state`; on a hit refresh the stored entry's generation to
`getNthGeneration(generationLength, t0, 3)` and return its translation;
on a miss fall back to `shortLivedBuffer`. Always bumps the `gets`
counters. Returns the result and the updated tracker. -/
def GetTranslationForConn (ctr : realConntracker) (ip : Address) (port : Nat)
    (transport : ConnectionType) (t0 t1 : Nat) :
    Option IPTranslation × realConntracker :=
  let k : connKey := ⟨ip, port, transport⟩
  let stats' : Stats :=
    { ctr.stats with
      gets := ctr.stats.gets + 1
      getTimeTotal := ctr.stats.getTimeTotal + ((t1 : Int) - (t0 : Int)) }
  match mapLookup ctr.state k with
  | none => (mapLookup ctr.shortLivedBuffer k, { ctr with stats := stats' })
  | some v =>
      (some v.translation,
        { ctr with
          state := mapInsert ctr.state k
            { v with expGeneration := getNthGeneration generationLength t0 3 }
          stats := stats' })

/-- `ClearShortLived` (conntracker.go lines 186-191): replace the
short-lived buffer with a fresh empty map. -/
def ClearShortLived (ctr : realConntracker) : realConntracker :=
  { ctr with shortLivedBuffer := [] }

/-- `GetStats` (conntracker.go lines 193-221): the snapshot map, with
the per-counter pairs present exactly when the total is nonzero. Go map
iteration order is unspecified, so the list order is the insertion order
of the Go code. -/
def GetStats (ctr : realConntracker) : List (String × Int) :=
  [("state_size", (ctr.state.length : Int)),
   ("short_term_buffer_size", (ctr.shortLivedBuffer.length : Int)),
   ("expires", ctr.stats.expiresTotal)]
  ++ (if ctr.stats.gets ≠ 0 then
        [("gets_total", ctr.stats.gets),
         ("nanoseconds_per_get", Int.tdiv ctr.stats.getTimeTotal ctr.stats.gets)]
      else [])
  ++ (if ctr.stats.registers ≠ 0 then
        [("registers_total", ctr.stats.registers),
         ("nanoseconds_per_register",
           Int.tdiv ctr.stats.registersTotalTime ctr.stats.registers)]
      else [])
  ++ (if ctr.stats.unregisters ≠ 0 then
        [("unregisters_total", ctr.stats.unregisters),
         ("nanoseconds_per_unregister",
           Int.tdiv ctr.stats.unregistersTotalTime ctr.stats.unregisters)]
      else [])

/-- `register` (conntracker.go lines 241-269): drop non-NAT entries and
entries whose key does not format; reject (leaving the tracker
unchanged, after a rate-limited warning) whenever `len(state) >=
maxStateSize` — the check does not look at whether the key is already
present; otherwise store `formatIPTranslation(c, nth(t0, 3))` and bump
the register counters. -/
def register (ctr : realConntracker) (c : Con) (t0 t1 : Nat) :
    Except Unit realConntracker := do
  let b ← isNAT c
  if !b then .ok ctr else do
  let kr ← formatKey c
  if !kr.2 then .ok ctr else
  if ctr.state.length ≥ ctr.maxStateSize then .ok ctr
  else do
    let v ← formatIPTranslation c (getNthGeneration generationLength t0 3)
    .ok { ctr with
          state := mapInsert ctr.state kr.1 v
          stats :=
            { ctr.stats with
              registers := ctr.stats.registers + 1
              registersTotalTime :=
                ctr.stats.registersTotalTime + ((t1 : Int) - (t0 : Int)) } }

/-- `unregister` (conntracker.go lines 279-309): drop non-NAT entries
and entries whose key does not format; delete the key from `state`; if
it was present and the short-lived buffer is strictly below its
capacity, move the translation there, otherwise drop it with a warning;
bump the unregister counters either way. -/
def unregister (ctr : realConntracker) (c : Con) (t0 t1 : Nat) :
    Except Unit realConntracker := do
  let b ← isNAT c
  if !b then .ok ctr else do
  let kr ← formatKey c
  if !kr.2 then .ok ctr else
  let key := kr.1
  let found := mapLookup ctr.state key
  let buf' :=
    match found with
    | some v =>
        if ctr.shortLivedBuffer.length < ctr.maxShortLivedBuffer then
          mapInsert ctr.shortLivedBuffer key v.translation
        else ctr.shortLivedBuffer
    | none => ctr.shortLivedBuffer
  .ok { ctr with
        state := mapErase ctr.state key
        shortLivedBuffer := buf'
        stats :=
          { ctr.stats with
            unregisters := ctr.stats.unregisters + 1
            unregistersTotalTime :=
              ctr.stats.unregistersTotalTime + ((t1 : Int) - (t0 : Int)) } }

/-- `compact` (conntracker.go lines 317-333): rebuild `state` keeping
the entries whose `expGeneration` differs from the current generation,
counting the dropped ones into `expiresTotal`. -/
def compact (ctr : realConntracker) (t0 : Nat) : realConntracker :=
  let gen := getCurrentGeneration generationLength t0
  { ctr with
    state := ctr.state.filter (fun p => p.2.expGeneration != gen)
    stats :=
      { ctr.stats with
        expiresTotal := ctr.stats.expiresTotal
          + (ctr.state.countP (fun p => p.2.expGeneration == gen) : Int) } }

/-- `loadInitialState` (conntracker.go lines 228-237): insert every NAT
entry of the dump whose key formats, all stamped at
`getNthGeneration(generationLength, t0, 3)`, with no size check. -/
def loadInitialState (ctr : realConntracker) (sessions : List Con) (t0 : Nat) :
    Except Unit realConntracker := do
  let gen := getNthGeneration generationLength t0 3
  let st ← sessions.foldlM
    (fun st c => do
      let b ← isNAT c
      if b then do
        let kr ← formatKey c
        if kr.2 then do
          let v ← formatIPTranslation c gen
          pure (mapInsert st kr.1 v)
        else pure st
      else pure st)
    ctr.state
  .ok { ctr with state := st }

/-! ## Shutdown -/

/-- The release state of the external resources a tracker owns: the
compaction ticker, the rate-limited logger, the two netlink handles
(`nfct`, `nfctDel`), and the background compaction worker. After
construction every flag is false (everything live). -/
structure CloseState where
  compactTickerStopped : Bool
  logLimitClosed : Bool
  nfctClosed : Bool
  nfctDelClosed : Bool
  workersJoined : Bool
deriving DecidableEq, Repr

/-- The resource state right after a successful construction. -/
def initialCloseState : CloseState :=
  { compactTickerStopped := false
    logLimitClosed := false
    nfctClosed := false
    nfctDelClosed := false
    workersJoined := false }

/-- `Close` (conntracker.go lines 223-226): the body is exactly
`ctr.compactTicker.Stop()` and `ctr.exceededSizeLogLimit.Close()`; it
touches no other resource. `time.Ticker.Stop` is idempotent by its Go
documentation, and the log limiter close is modelled from the spec as
idempotent ("Shutdown is idempotent"); `util.LogLimit` is not under
`src/`. -/
def Close (s : CloseState) : CloseState :=
  { s with compactTickerStopped := true, logLimitClosed := true }

/-! ## Concrete entries used by the scenario theorems -/

/-- A fully populated conntrack entry from its origin and reply
fields (same protocol number on both tuples, as the kernel reports). -/
def mkCon (osrc odst : NetIP) (osp odp num : Nat)
    (rsrc rdst : NetIP) (rsp rdp : Nat) : Con :=
  ⟨some ⟨some osrc, some odst, some ⟨some num, some osp, some odp⟩⟩,
   some ⟨some rsrc, some rdst, some ⟨some num, some rsp, some rdp⟩⟩⟩

/-- Extract the tracker from a successful step, with a fallback for the
(unreached) error case. -/
def okOr (x : Except Unit realConntracker) (dflt : realConntracker) : realConntracker :=
  match x with
  | .ok s => s
  | .error _ => dflt

/-! ## Lemmas about the map model -/

theorem exceptBind_ok {ε α β : Type} (a : α) (f : α → Except ε β) :
    (Except.ok a >>= f) = f a := rfl

theorem exceptBind_error {ε α β : Type} (e : ε) (f : α → Except ε β) :
    ((Except.error e : Except ε α) >>= f) = Except.error e := rfl

theorem mapLookup_mapInsert_self {κ α : Type} [DecidableEq κ]
    (m : List (κ × α)) (k : κ) (v : α) :
    mapLookup (mapInsert m k v) k = some v := by
  induction m with
  | nil => simp [mapInsert, mapLookup]
  | cons p rest ih =>
    by_cases h : p.1 = k
    · simp [mapInsert, mapLookup, h]
    · simp [mapInsert, mapLookup, h, ih]

theorem mapLookup_mapInsert_ne {κ α : Type} [DecidableEq κ]
    (m : List (κ × α)) (k k₂ : κ) (v : α) (h : k₂ ≠ k) :
    mapLookup (mapInsert m k v) k₂ = mapLookup m k₂ := by
  have h2 : ¬(k = k₂) := fun h' => h h'.symm
  induction m with
  | nil => simp [mapInsert, mapLookup, h2]
  | cons p rest ih =>
    obtain ⟨k', v'⟩ := p
    by_cases h' : k' = k
    · simp [mapInsert, mapLookup, h', h2]
    · simp [mapInsert, mapLookup, h', ih]

theorem mapLookup_mapErase_self {κ α : Type} [DecidableEq κ]
    (m : List (κ × α)) (k : κ) :
    mapLookup (mapErase m k) k = none := by
  induction m with
  | nil => simp [mapErase, mapLookup]
  | cons p rest ih =>
    obtain ⟨k', v'⟩ := p
    by_cases h : k' = k
    · simp [mapErase, h, ih]
    · simp [mapErase, mapLookup, h, ih]

theorem mapLookup_mapErase_ne {κ α : Type} [DecidableEq κ]
    (m : List (κ × α)) (k k₂ : κ) (h : k₂ ≠ k) :
    mapLookup (mapErase m k) k₂ = mapLookup m k₂ := by
  have h2 : ¬(k = k₂) := fun h' => h h'.symm
  induction m with
  | nil => simp [mapErase]
  | cons p rest ih =>
    obtain ⟨k', v'⟩ := p
    by_cases h' : k' = k
    · simp [mapErase, mapLookup, h', h2, ih]
    · simp [mapErase, mapLookup, h', ih]

theorem mapInsert_length {κ α : Type} [DecidableEq κ]
    (m : List (κ × α)) (k : κ) (v : α) :
    (mapInsert m k v).length ≤ m.length + 1 := by
  induction m with
  | nil => simp [mapInsert]
  | cons p rest ih =>
    by_cases h : p.1 = k
    · simp [mapInsert, h]
    · simp only [mapInsert, h, if_false, List.length_cons]
      omega

theorem mapLookup_filter_none {κ α : Type} [DecidableEq κ]
    (m : List (κ × α)) (p : κ × α → Bool) (k : κ)
    (h : mapLookup m k = none) :
    mapLookup (m.filter p) k = none := by
  induction m with
  | nil => simp [mapLookup]
  | cons q rest ih =>
    by_cases h' : q.1 = k
    · simp [mapLookup, h'] at h
    · simp only [mapLookup, h', if_false] at h
      by_cases hp : p q
      · simp [List.filter, hp, mapLookup, h', ih h]
      · simp [List.filter, hp, ih h]

/-! ## Inversion of the callback operations -/

/-- A successful `register` step either leaves the tracker unchanged
(non-NAT event, unformattable key, or the size rejection) or inserts the
freshly formatted entry when the index is strictly below capacity. -/
theorem register_cases (ctr s' : realConntracker) (c : Con) (t0 t1 : Nat)
    (h : register ctr c t0 t1 = .ok s') :
    s' = ctr ∨
    ∃ k v, formatKey c = .ok (k, true) ∧
      formatIPTranslation c (getNthGeneration generationLength t0 3) = .ok v ∧
      ctr.state.length < ctr.maxStateSize ∧
      s' = { ctr with
             state := mapInsert ctr.state k v
             stats :=
               { ctr.stats with
                 registers := ctr.stats.registers + 1
                 registersTotalTime :=
                   ctr.stats.registersTotalTime + ((t1 : Int) - (t0 : Int)) } } := by
  unfold register at h
  cases hn : isNAT c with
  | error e => rw [hn, exceptBind_error] at h; exact absurd h (by simp)
  | ok b =>
    rw [hn, exceptBind_ok] at h
    cases b with
    | false => simp at h; exact Or.inl h.symm
    | true =>
      simp only [Bool.not_true, Bool.false_eq_true, if_false] at h
      cases hk : formatKey c with
      | error e => rw [hk, exceptBind_error] at h; exact absurd h (by simp)
      | ok kr =>
        obtain ⟨k1, ok1⟩ := kr
        rw [hk, exceptBind_ok] at h
        cases ok1 with
        | false => simp at h; exact Or.inl h.symm
        | true =>
          simp only [Bool.not_true, Bool.false_eq_true, if_false] at h
          by_cases hsz : ctr.state.length ≥ ctr.maxStateSize
          · rw [if_pos hsz] at h
            simp at h
            exact Or.inl h.symm
          · rw [if_neg hsz] at h
            cases hf : formatIPTranslation c (getNthGeneration generationLength t0 3) with
            | error e => rw [hf, exceptBind_error] at h; exact absurd h (by simp)
            | ok v =>
              rw [hf, exceptBind_ok] at h
              simp only [Except.ok.injEq] at h
              subst h
              exact Or.inr ⟨k1, v, rfl, rfl, by omega, rfl⟩

/-- A successful `unregister` step either leaves the tracker unchanged
or erases the formatted key from the index, moving its translation into
the short-lived buffer exactly when the key was present and the buffer
strictly below capacity. -/
theorem unregister_cases (ctr s' : realConntracker) (c : Con) (t0 t1 : Nat)
    (h : unregister ctr c t0 t1 = .ok s') :
    s' = ctr ∨
    ∃ k, formatKey c = .ok (k, true) ∧
      s'.state = mapErase ctr.state k ∧
      (s'.shortLivedBuffer = ctr.shortLivedBuffer ∨
       ∃ v, mapLookup ctr.state k = some v ∧
         s'.shortLivedBuffer = mapInsert ctr.shortLivedBuffer k v.translation) ∧
      s'.maxShortLivedBuffer = ctr.maxShortLivedBuffer ∧
      s'.maxStateSize = ctr.maxStateSize := by
  unfold unregister at h
  cases hn : isNAT c with
  | error e => rw [hn, exceptBind_error] at h; exact absurd h (by simp)
  | ok b =>
    rw [hn, exceptBind_ok] at h
    cases b with
    | false => simp at h; exact Or.inl h.symm
    | true =>
      simp only [Bool.not_true, Bool.false_eq_true, if_false] at h
      cases hk : formatKey c with
      | error e => rw [hk, exceptBind_error] at h; exact absurd h (by simp)
      | ok kr =>
        obtain ⟨k1, ok1⟩ := kr
        rw [hk, exceptBind_ok] at h
        cases ok1 with
        | false => simp at h; exact Or.inl h.symm
        | true =>
          simp only [Bool.not_true, Bool.false_eq_true, if_false,
            Except.ok.injEq] at h
          subst h
          refine Or.inr ⟨k1, rfl, rfl, ?_, rfl, rfl⟩
          cases hf : mapLookup ctr.state k1 with
          | none => left; simp [hf]
          | some v =>
            by_cases hroom : ctr.shortLivedBuffer.length < ctr.maxShortLivedBuffer
            · exact Or.inr ⟨v, rfl, by simp [hroom]⟩
            · left; simp [hf, hroom]

/-! ## Concrete NAT flows -/

/-- A NAT flow with origin endpoint `(10.0.0.1, 40000, TCP)`. -/
def flowA : Con := mkCon [10, 0, 0, 1] [10, 0, 0, 2] 40000 80 6 [1, 2, 3, 4] [5, 6, 7, 8] 80 40000

/-- A NAT flow with origin endpoint `(10.0.0.2, 40001, TCP)`. -/
def flowB : Con := mkCon [10, 0, 0, 2] [10, 0, 0, 2] 40001 80 6 [1, 2, 3, 4] [5, 6, 7, 9] 80 40001

/-- A NAT flow with origin endpoint `(10.0.0.3, 40002, TCP)`. -/
def flowC : Con := mkCon [10, 0, 0, 3] [10, 0, 0, 2] 40002 80 6 [1, 2, 3, 4] [5, 6, 7, 10] 80 40002

/-- The `connKey` of `flowA`. -/
def keyA : connKey := ⟨[10, 0, 0, 1], 40000, ConnectionType.tcp⟩

/-! ## Claims -/

/-- Scenario for C4: a tracker with `deleteBufferSize = 2`, three
distinct NAT flows registered and destroyed in sequence. -/
def c4run : Except Unit realConntracker := do
  let s1 ← register (mkTracker 2 10) flowA 0 0
  let s2 ← unregister s1 flowA 0 0
  let s3 ← register s2 flowB 0 0
  let s4 ← unregister s3 flowB 0 0
  let s5 ← register s4 flowC 0 0
  let s6 ← unregister s5 flowC 0 0
  .ok s6

/-- C4, counterexample: with `deleteBufferSize = 2`, after registering
and destroying three distinct NAT flows in sequence, a lookup of the
FIRST destroyed flow still resolves — the claim says it returns absent
(FIFO displacement); the code instead drops the incoming entry when the
buffer is full. -/
theorem C4_counterexample :
    c4run.map
      (fun s => ((GetTranslationForConn s [10, 0, 0, 1] 40000 .tcp 0 0).1).isSome)
      = .ok true := by
  rfl

/-- C4, amended: the short-lived buffer drops the incoming entry when
full: with `deleteBufferSize = 2`, after registering and destroying
three distinct NAT flows in sequence, lookups of the first two destroyed
flows still resolve while a lookup of the third (most recently
destroyed) flow returns absent. -/
theorem C4_drop_newest :
    c4run.map (fun s =>
      ((GetTranslationForConn s [10, 0, 0, 1] 40000 .tcp 0 0).1,
       (GetTranslationForConn s [10, 0, 0, 2] 40001 .tcp 0 0).1,
       (GetTranslationForConn s [10, 0, 0, 3] 40002 .tcp 0 0).1)) =
    .ok (some ⟨[1, 2, 3, 4], [5, 6, 7, 8], 80, 40000⟩,
         some ⟨[1, 2, 3, 4], [5, 6, 7, 9], 80, 40001⟩,
         none) := by
  rfl

/-- C8, counterexample: after `Close` on a freshly constructed tracker,
the two kernel subscription handles are still open and the background
worker is not joined — `Close` only stops the compaction ticker and
closes the log-rate limiter. -/
theorem C8_counterexample :
    (Close initialCloseState).nfctClosed = false ∧
    (Close initialCloseState).nfctDelClosed = false ∧
    (Close initialCloseState).workersJoined = false :=
  ⟨rfl, rfl, rfl⟩

/-- C8, amended: `Close` stops the compaction ticker and closes the
log-rate limiter, leaves the kernel handles and workers untouched, and
calling it more than once is safe (idempotent). -/
theorem C8_close_partial (s : CloseState) :
    (Close s).compactTickerStopped = true ∧
    (Close s).logLimitClosed = true ∧
    (Close s).nfctClosed = s.nfctClosed ∧
    (Close s).nfctDelClosed = s.nfctDelClosed ∧
    (Close s).workersJoined = s.workersJoined ∧
    Close (Close s) = Close s :=
  ⟨rfl, rfl, rfl, rfl, rfl, rfl⟩

/-- C2, counterexample: `loadInitialState` performs no size check:
seeding a tracker whose `maxStateSize` is 1 with two distinct NAT
entries leaves the translation index at size 2, above `maxStateSize`. -/
theorem C2_counterexample :
    (loadInitialState (mkTracker 2 1) [flowA, flowB] 0).map
      (fun s => decide (s.state.length ≤ s.maxStateSize)) = .ok false := by
  rfl

/-- C2, amended: every create/update event preserves the bound — if the
translation index is within `maxStateSize` before a `register` callback,
it still is afterwards (the rejection branch fires at the registration
boundary). The initial dump seeding, however, is unbounded. -/
theorem C2_register_bounded (ctr s' : realConntracker) (c : Con) (t0 t1 : Nat)
    (hle : ctr.state.length ≤ ctr.maxStateSize)
    (h : register ctr c t0 t1 = .ok s') :
    s'.state.length ≤ s'.maxStateSize := by
  rcases register_cases ctr s' c t0 t1 h with rfl | ⟨k, v, _, _, hlt, rfl⟩
  · exact hle
  · have hins := mapInsert_length ctr.state k v
    show (mapInsert ctr.state k v).length ≤ ctr.maxStateSize
    omega

/-- A tracker with `maxStateSize = 1` holding exactly the entry of
`flowA`, registered at time 0 (generation stamp 3). -/
def oneEntryTracker : realConntracker :=
  okOr (register (mkTracker 2 1) flowA 0 0) (mkTracker 2 1)

/-- C2, witness: the bound-preservation theorem at the empty tracker of
capacity 1 and the `flowA` create event. -/
theorem C2_register_bounded_witness :
    (mkTracker 2 1).state.length ≤ (mkTracker 2 1).maxStateSize ∧
    oneEntryTracker.state.length ≤ oneEntryTracker.maxStateSize :=
  ⟨by decide,
   C2_register_bounded (mkTracker 2 1) oneEntryTracker flowA 0 0 (by decide) (by rfl)⟩

/-- The index entry `formatIPTranslation` produces for `flowA` at
generation 3. -/
def flowAValue : connValue :=
  ⟨⟨[1, 2, 3, 4], [5, 6, 7, 8], 80, 40000⟩, 3⟩

/-- C3, counterexample: a tracker at capacity (`|C3| = maxStateSize =
1`) whose single key is `keyA` REJECTS a later create/update event for
that same key: the tracker is returned unchanged, the stored entry keeps
generation 3 although the refreshed stamp would be 4 — the claim says
the insert succeeds and overwrites whenever the key is already
present. -/
theorem C3_counterexample :
    oneEntryTracker.state.length = oneEntryTracker.maxStateSize ∧
    (mapLookup oneEntryTracker.state keyA).isSome = true ∧
    register oneEntryTracker flowA generationLength generationLength =
      .ok oneEntryTracker ∧
    (mapLookup oneEntryTracker.state keyA).map connValue.expGeneration = some 3 ∧
    getNthGeneration generationLength generationLength 3 = 4 :=
  ⟨rfl, rfl, rfl, rfl, rfl⟩

/-- C3, amended: for a NAT create/update event with a formattable key,
rejection happens whenever `|C3| ≥ maxStateSize` — even when the key is
already present, in which case the stored entry is not overwritten and
its generation not refreshed; the insert succeeds and overwrites exactly
when `|C3| < maxStateSize`. -/
theorem C3_register_capacity (ctr : realConntracker) (c : Con) (k : connKey)
    (v : connValue) (t0 t1 : Nat)
    (hnat : isNAT c = .ok true)
    (hkey : formatKey c = .ok (k, true))
    (hfmt : formatIPTranslation c (getNthGeneration generationLength t0 3) = .ok v) :
    (ctr.maxStateSize ≤ ctr.state.length → register ctr c t0 t1 = .ok ctr) ∧
    (ctr.state.length < ctr.maxStateSize →
      register ctr c t0 t1 =
        .ok { ctr with
              state := mapInsert ctr.state k v
              stats :=
                { ctr.stats with
                  registers := ctr.stats.registers + 1
                  registersTotalTime :=
                    ctr.stats.registersTotalTime + ((t1 : Int) - (t0 : Int)) } } ∧
      mapLookup (mapInsert ctr.state k v) k = some v) := by
  constructor
  · intro hge
    unfold register
    rw [hnat, exceptBind_ok]
    simp only [Bool.not_true, Bool.false_eq_true, if_false]
    rw [hkey, exceptBind_ok]
    simp only [Bool.not_true, Bool.false_eq_true, if_false]
    rw [if_pos (show ctr.state.length ≥ ctr.maxStateSize by omega)]
  · intro hlt
    refine ⟨?_, mapLookup_mapInsert_self ctr.state k v⟩
    unfold register
    rw [hnat, exceptBind_ok]
    simp only [Bool.not_true, Bool.false_eq_true, if_false]
    rw [hkey, exceptBind_ok]
    simp only [Bool.not_true, Bool.false_eq_true, if_false]
    rw [if_neg (show ¬ctr.state.length ≥ ctr.maxStateSize by omega)]
    rw [hfmt, exceptBind_ok]

/-- C3, witness: the rejection branch fires on `oneEntryTracker` (at
capacity with `keyA` present) and the overwrite branch on an empty
tracker. -/
theorem C3_register_capacity_witness :
    isNAT flowA = .ok true ∧
    formatKey flowA = .ok (keyA, true) ∧
    oneEntryTracker.maxStateSize ≤ oneEntryTracker.state.length ∧
    register oneEntryTracker flowA 0 0 = .ok oneEntryTracker ∧
    (mkTracker 2 1).state.length < (mkTracker 2 1).maxStateSize ∧
    mapLookup (mapInsert (mkTracker 2 1).state keyA flowAValue) keyA =
      some flowAValue := by
  refine ⟨rfl, rfl, by decide, ?_, by decide, ?_⟩
  · exact (C3_register_capacity oneEntryTracker flowA keyA flowAValue 0 0
      rfl rfl rfl).1 (by decide)
  · exact ((C3_register_capacity (mkTracker 2 1) flowA keyA flowAValue 0 0
      rfl rfl rfl).2 (by decide)).2

/-- The entry used against C5: every nil-checked field present but
`Origin.Src` absent. -/
def c5bad : Con :=
  ⟨some ⟨none, some [10, 0, 0, 2], some ⟨some 6, some 1, some 2⟩⟩,
   some ⟨some [1, 2, 3, 4], some [5, 6, 7, 8], some ⟨some 6, some 3, some 4⟩⟩⟩

/-- C5, counterexample: on an entry whose origin source address is
absent while every nil-checked field is present, `isNAT` faults (nil
pointer dereference) instead of returning false. -/
theorem C5_counterexample : isNAT c5bad = .error () := rfl

/-- C5, amended: `isNAT` returns false whenever one of the eight
nil-checked fields (the origin tuple, the reply tuple, either proto
block, or any of the four ports) is absent; but when those are present
and the origin source address is absent, `isNAT` faults instead of
returning false. -/
theorem C5_nil_checks (c : Con) :
    ((c.Origin = none ∨ c.Reply = none ∨
      (∃ o, c.Origin = some o ∧ o.Proto = none) ∨
      (∃ r, c.Reply = some r ∧ r.Proto = none) ∨
      (∃ o op, c.Origin = some o ∧ o.Proto = some op ∧
        (op.SrcPort = none ∨ op.DstPort = none)) ∨
      (∃ r rp, c.Reply = some r ∧ r.Proto = some rp ∧
        (rp.SrcPort = none ∨ rp.DstPort = none))) →
      isNAT c = .ok false) ∧
    (∀ o, c.Origin = some o → o.Src = none → requiredAbsent c = false →
      isNAT c = .error ()) := by
  constructor
  · intro h
    have hra : requiredAbsent c = true := by
      obtain ⟨o1, r1⟩ := c
      rcases h with h | h | ⟨o, ho, hp⟩ | ⟨r, hr, hp⟩ |
        ⟨o, op, ho, hp, hport⟩ | ⟨r, rp, hr, hp, hport⟩
      · simp only [] at h; subst h; rfl
      · simp only [] at h; subst h; cases o1 <;> rfl
      · simp only [] at ho; subst ho
        cases r1 with
        | none => rfl
        | some r => simp [requiredAbsent, hp]
      · simp only [] at hr; subst hr
        cases o1 with
        | none => rfl
        | some o =>
          cases hop : o.Proto with
          | none => simp [requiredAbsent, hop]
          | some op => simp [requiredAbsent, hop, hp]
      · simp only [] at ho; subst ho
        cases r1 with
        | none => rfl
        | some r =>
          cases hrp : r.Proto with
          | none => simp [requiredAbsent, hp, hrp]
          | some rp => rcases hport with h | h <;> simp [requiredAbsent, hp, hrp, h]
      · simp only [] at hr; subst hr
        cases o1 with
        | none => rfl
        | some o =>
          cases hop : o.Proto with
          | none => simp [requiredAbsent, hop]
          | some op => rcases hport with h | h <;> simp [requiredAbsent, hop, hp, h]
    simp [isNAT, hra]
  · intro o ho hs hra
    cases hR : c.Reply with
    | none =>
      exfalso
      obtain ⟨o1, r1⟩ := c
      simp only [] at ho hR
      subst ho; subst hR
      simp [requiredAbsent] at hra
    | some r =>
      cases hop : o.Proto with
      | none =>
        exfalso
        obtain ⟨o1, r1⟩ := c
        simp only [] at ho hR
        subst ho; subst hR
        simp [requiredAbsent, hop] at hra
      | some op =>
        cases hrp : r.Proto with
        | none =>
          exfalso
          obtain ⟨o1, r1⟩ := c
          simp only [] at ho hR
          subst ho; subst hR
          simp [requiredAbsent, hop, hrp] at hra
        | some rp =>
          simp [isNAT, hra, ho, hR, hop, hrp, hs, deref,
            exceptBind_ok, exceptBind_error]

/-- A conntrack entry with no origin tuple at all. -/
def c5noOrigin : Con :=
  ⟨none, some ⟨some [1, 2, 3, 4], some [5, 6, 7, 8], some ⟨some 6, some 3, some 4⟩⟩⟩

/-- C5, witness: the nil-check branch at a concrete entry with no origin
tuple, and the faulting branch at `c5bad`. -/
theorem C5_nil_checks_witness :
    isNAT c5noOrigin = .ok false ∧ isNAT c5bad = .error () :=
  ⟨(C5_nil_checks c5noOrigin).1 (Or.inl rfl),
   (C5_nil_checks c5bad).2 ⟨none, some [10, 0, 0, 2], some ⟨some 6, some 1, some 2⟩⟩
     rfl rfl rfl⟩

/-- C7, counterexample: the stats snapshot of a fresh tracker has no
`expires_total` key — the expiry counter is exported under the key
`expires`. -/
theorem C7_counterexample :
    mapLookup (GetStats (mkTracker 2 10)) "expires_total" = none := by
  rfl

/-- C7, amended: the map returned by `GetStats` always contains
`state_size`, `short_term_buffer_size`, and `expires` (the claim's
`expires_total` key never occurs), and contains the pair `X_total` /
`nanoseconds_per_X` (the truncated division of the accumulated
nanoseconds by the count) exactly for each counter X in {gets,
registers, unregisters} whose total is nonzero. -/
theorem C7_stats_layout (ctr : realConntracker) :
    mapLookup (GetStats ctr) "state_size" = some (ctr.state.length : Int) ∧
    mapLookup (GetStats ctr) "short_term_buffer_size" =
      some (ctr.shortLivedBuffer.length : Int) ∧
    mapLookup (GetStats ctr) "expires" = some ctr.stats.expiresTotal ∧
    mapLookup (GetStats ctr) "expires_total" = none ∧
    mapLookup (GetStats ctr) "gets_total" =
      (if ctr.stats.gets = 0 then none else some ctr.stats.gets) ∧
    mapLookup (GetStats ctr) "nanoseconds_per_get" =
      (if ctr.stats.gets = 0 then none
       else some (Int.tdiv ctr.stats.getTimeTotal ctr.stats.gets)) ∧
    mapLookup (GetStats ctr) "registers_total" =
      (if ctr.stats.registers = 0 then none else some ctr.stats.registers) ∧
    mapLookup (GetStats ctr) "nanoseconds_per_register" =
      (if ctr.stats.registers = 0 then none
       else some (Int.tdiv ctr.stats.registersTotalTime ctr.stats.registers)) ∧
    mapLookup (GetStats ctr) "unregisters_total" =
      (if ctr.stats.unregisters = 0 then none else some ctr.stats.unregisters) ∧
    mapLookup (GetStats ctr) "nanoseconds_per_unregister" =
      (if ctr.stats.unregisters = 0 then none
       else some (Int.tdiv ctr.stats.unregistersTotalTime ctr.stats.unregisters)) := by
  by_cases hg : ctr.stats.gets = 0 <;>
    by_cases hr : ctr.stats.registers = 0 <;>
      by_cases hu : ctr.stats.unregisters = 0 <;>
        simp [GetStats, mapLookup, hg, hr, hu]

/-- C1, counterexample: a destroy event followed by a create/update
event for the same key leaves the key stored in BOTH the translation
index and the short-lived buffer at once — `register` does not purge the
short-lived buffer. -/
theorem C1_counterexample :
    (do
      let s1 ← register (mkTracker 10 10) flowA 0 0
      let s2 ← unregister s1 flowA 0 0
      let s3 ← register s2 flowA 0 0
      .ok ((mapLookup s3.state keyA).isSome, (mapLookup s3.shortLivedBuffer keyA).isSome)
      : Except Unit (Bool × Bool)) = .ok (true, true) := by
  rfl

/-- C1, amended: every single tracker operation preserves "K is present
in at most one of the translation index and the short-lived buffer",
EXCEPT a create/update event for a key currently stored in the
short-lived buffer — the register branch is only covered when K is
absent from the buffer, and the counterexample shows disjointness indeed
breaks otherwise. -/
theorem C1_step_disjointness (ctr s' : realConntracker) (c : Con) (K : connKey)
    (ip : Address) (port : Nat) (tr : ConnectionType) (t0 t1 : Nat)
    (hd : mapLookup ctr.state K = none ∨ mapLookup ctr.shortLivedBuffer K = none)
    (hstep :
      unregister ctr c t0 t1 = .ok s' ∨
      (register ctr c t0 t1 = .ok s' ∧ mapLookup ctr.shortLivedBuffer K = none) ∨
      s' = (GetTranslationForConn ctr ip port tr t0 t1).2 ∨
      s' = ClearShortLived ctr ∨
      s' = compact ctr t0) :
    mapLookup s'.state K = none ∨ mapLookup s'.shortLivedBuffer K = none := by
  rcases hstep with h | ⟨h, hbuf⟩ | h | h | h
  · rcases unregister_cases ctr s' c t0 t1 h with rfl | ⟨k, _, hst, hb, _, _⟩
    · exact hd
    · by_cases hKk : K = k
      · subst hKk
        left; rw [hst]; exact mapLookup_mapErase_self ctr.state K
      · rcases hb with hb | ⟨v, _, hb⟩
        · rcases hd with hd | hd
          · left; rw [hst, mapLookup_mapErase_ne ctr.state k K hKk]; exact hd
          · right; rw [hb]; exact hd
        · rcases hd with hd | hd
          · left; rw [hst, mapLookup_mapErase_ne ctr.state k K hKk]; exact hd
          · right
            rw [hb, mapLookup_mapInsert_ne ctr.shortLivedBuffer k K v.translation hKk]
            exact hd
  · rcases register_cases ctr s' c t0 t1 h with rfl | ⟨k, v, _, _, _, rfl⟩
    · exact hd
    · exact Or.inr hbuf
  · subst h
    cases hf : mapLookup ctr.state ⟨ip, port, tr⟩ with
    | none =>
      simp only [GetTranslationForConn, hf]
      exact hd
    | some v =>
      simp only [GetTranslationForConn, hf]
      rcases hd with hd | hd
      · have hne : K ≠ (⟨ip, port, tr⟩ : connKey) := by
          intro he; rw [he, hf] at hd; exact absurd hd (by simp)
        left
        rw [mapLookup_mapInsert_ne ctr.state ⟨ip, port, tr⟩ K _ hne]
        exact hd
      · exact Or.inr hd
  · subst h
    right
    rfl
  · subst h
    rcases hd with hd | hd
    · exact Or.inl (mapLookup_filter_none ctr.state _ K hd)
    · exact Or.inr hd

/-- C1, witness: the preservation theorem at `oneEntryTracker` with the
`ClearShortLived` step. -/
theorem C1_step_disjointness_witness :
    (mapLookup oneEntryTracker.state keyA = none ∨
     mapLookup oneEntryTracker.shortLivedBuffer keyA = none) ∧
    (mapLookup (ClearShortLived oneEntryTracker).state keyA = none ∨
     mapLookup (ClearShortLived oneEntryTracker).shortLivedBuffer keyA = none) :=
  ⟨Or.inr rfl,
   C1_step_disjointness oneEntryTracker (ClearShortLived oneEntryTracker) flowA keyA
     [] 0 .tcp 0 0 (Or.inr rfl) (Or.inr (Or.inr (Or.inr (Or.inl rfl))))⟩

/-- C6: `GetTranslationForConn` is total (a miss is the absent value):
on a translation-index hit it returns that entry's translation and
refreshes the stored entry's generation to `nth(now, 3)`; on an index
miss it returns whatever the short-lived buffer holds for the key
(absent if neither map holds it). -/
theorem C6_lookup (ctr : realConntracker) (ip : Address) (port : Nat)
    (tr : ConnectionType) (t0 t1 : Nat) :
    (mapLookup ctr.state ⟨ip, port, tr⟩ = none →
      (GetTranslationForConn ctr ip port tr t0 t1).1 =
        mapLookup ctr.shortLivedBuffer ⟨ip, port, tr⟩) ∧
    (∀ v, mapLookup ctr.state ⟨ip, port, tr⟩ = some v →
      (GetTranslationForConn ctr ip port tr t0 t1).1 = some v.translation ∧
      mapLookup (GetTranslationForConn ctr ip port tr t0 t1).2.state ⟨ip, port, tr⟩ =
        some { v with expGeneration := getNthGeneration generationLength t0 3 }) := by
  constructor
  · intro h
    simp [GetTranslationForConn, h]
  · intro v h
    constructor
    · simp [GetTranslationForConn, h]
    · simp [GetTranslationForConn, h, mapLookup_mapInsert_self]

/-- C6, witness: a hit on `oneEntryTracker` at a later instant returns
the stored translation and re-stamps the entry with generation 4. -/
theorem C6_lookup_witness :
    mapLookup oneEntryTracker.state keyA = some flowAValue ∧
    (GetTranslationForConn oneEntryTracker [10, 0, 0, 1] 40000 .tcp generationLength 0).1 =
      some flowAValue.translation ∧
    mapLookup (GetTranslationForConn oneEntryTracker [10, 0, 0, 1] 40000 .tcp
        generationLength 0).2.state keyA =
      some { flowAValue with
             expGeneration := getNthGeneration generationLength generationLength 3 } := by
  refine ⟨rfl, ?_, ?_⟩
  · exact ((C6_lookup oneEntryTracker [10, 0, 0, 1] 40000 .tcp generationLength 0).2
      flowAValue rfl).1
  · exact ((C6_lookup oneEntryTracker [10, 0, 0, 1] 40000 .tcp generationLength 0).2
      flowAValue rfl).2

/-- The entry used against C9: a NAT entry whose key formats but whose
reply source address is absent. -/
def c9bad : Con :=
  ⟨some ⟨some [10, 0, 0, 1], some [10, 0, 0, 2], some ⟨some 6, some 1, some 2⟩⟩,
   some ⟨none, some [5, 6, 7, 8], some ⟨some 6, some 3, some 4⟩⟩⟩

/-- C9, counterexample: `c9bad` is a NAT entry (`isNAT` returns true,
deciding on the first address comparison) and `formatKey` succeeds, yet
`formatIPTranslation` faults on the absent reply source address instead
of producing an `IndexEntry`. -/
theorem C9_counterexample :
    isNAT c9bad = .ok true ∧
    formatKey c9bad = .ok (⟨[10, 0, 0, 1], 1, .tcp⟩, true) ∧
    formatIPTranslation c9bad 7 = .error () :=
  ⟨rfl, rfl, rfl⟩

/-- C9, amended: for every NAT entry whose key formats AND whose reply
source address is present, `formatIPTranslation` copies the reply
tuple's source address, destination address, source port and destination
port byte-for-byte and stamps exactly the supplied generation. -/
theorem C9_roundtrip (c : Con) (k : connKey) (g : Nat) (r : IPTuple) (rs : NetIP)
    (hnat : isNAT c = .ok true)
    (hkey : formatKey c = .ok (k, true))
    (hr : c.Reply = some r)
    (hrs : r.Src = some rs) :
    ∃ rd rp sp dp, r.Dst = some rd ∧ r.Proto = some rp ∧
      rp.SrcPort = some sp ∧ rp.DstPort = some dp ∧
      formatIPTranslation c g =
        .ok ⟨⟨AddressFromNetIP rs, AddressFromNetIP rd, sp, dp⟩, g⟩ := by
  have hra : requiredAbsent c = false := by
    cases hx : requiredAbsent c
    · rfl
    · exfalso
      simp [isNAT, hx] at hnat
  cases hO : c.Origin with
  | none => exfalso; simp [requiredAbsent, hO] at hra
  | some o =>
    cases hop : o.Proto with
    | none => exfalso; simp [requiredAbsent, hO, hr, hop] at hra
    | some op =>
      cases hrp : r.Proto with
      | none => exfalso; simp [requiredAbsent, hO, hr, hop, hrp] at hra
      | some rp =>
        cases hsp : rp.SrcPort with
        | none => exfalso; simp [requiredAbsent, hO, hr, hop, hrp, hsp] at hra
        | some sp =>
          cases hdp : rp.DstPort with
          | none => exfalso; simp [requiredAbsent, hO, hr, hop, hrp, hsp, hdp] at hra
          | some dp =>
            cases hosrc : o.Src with
            | none =>
              exfalso
              simp [isNAT, hra, hO, hr, hop, hrp, hosrc, deref,
                exceptBind_ok, exceptBind_error] at hnat
            | some os =>
              cases hrd : r.Dst with
              | none =>
                exfalso
                simp [isNAT, hra, hO, hr, hop, hrp, hosrc, hrd, deref,
                  exceptBind_ok, exceptBind_error] at hnat
              | some rd =>
                refine ⟨rd, rp, sp, dp, rfl, rfl, hsp, hdp, ?_⟩
                simp [formatIPTranslation, hr, hrs, hrd, hrp, hsp, hdp, deref,
                  exceptBind_ok]

/-- The reply tuple of `flowA`. -/
def flowAReply : IPTuple :=
  ⟨some [1, 2, 3, 4], some [5, 6, 7, 8], some ⟨some 6, some 80, some 40000⟩⟩

/-- C9, witness: the round-trip theorem at `flowA` with generation 7. -/
theorem C9_roundtrip_witness :
    isNAT flowA = .ok true ∧
    formatKey flowA = .ok (keyA, true) ∧
    flowA.Reply = some flowAReply ∧
    flowAReply.Src = some [1, 2, 3, 4] ∧
    (∃ rd rp sp dp, flowAReply.Dst = some rd ∧ flowAReply.Proto = some rp ∧
      rp.SrcPort = some sp ∧ rp.DstPort = some dp ∧
      formatIPTranslation flowA 7 =
        .ok ⟨⟨AddressFromNetIP [1, 2, 3, 4], AddressFromNetIP rd, sp, dp⟩, 7⟩) :=
  ⟨rfl, rfl, rfl, rfl,
   C9_roundtrip flowA keyA 7 flowAReply [1, 2, 3, 4] rfl rfl rfl rfl⟩

/-- C10: `ClearShortLived` empties the short-lived buffer and changes
nothing else — the translation index (including every generation stamp),
both capacity limits, and the whole statistics block are unchanged. -/
theorem C10_clearShortLived_frame (ctr : realConntracker) :
    (ClearShortLived ctr).shortLivedBuffer = [] ∧
    (ClearShortLived ctr).state = ctr.state ∧
    (ClearShortLived ctr).maxShortLivedBuffer = ctr.maxShortLivedBuffer ∧
    (ClearShortLived ctr).maxStateSize = ctr.maxStateSize ∧
    (ClearShortLived ctr).stats = ctr.stats :=
  ⟨rfl, rfl, rfl, rfl, rfl⟩

end Netlink
